import Mathlib

/-!
Verification of the pdf-to-image conversion service (src/index.js).

The JavaScript program is shallowly embedded: every mutation of the shared
job record between two cooperative suspension points (awaits) is one atomic
step, and the pipeline produces the list of observable job states in order.
External collaborators (filesystem, the PDF renderer, the sharp encoder) are
modelled as an environment of outcomes, since the program only consumes
their results. Machine integers are Nat; byte buffers are lists of bytes;
the only floating-point computation the claims touch is the JavaScript
division for the overall compression ratio, modelled exactly by a rational
together with the NaN and Infinity cases.
-/

namespace PdfServer

/-- Status of a conversion job: the string values pending, processing,
completed and failed assigned to the field in src/index.js. -/
inductive Status where
  | pending
  | processing
  | completed
  | failed
  deriving DecidableEq

/-- Result of a JavaScript floating-point division of two byte totals:
either a finite number, NaN (from 0/0) or Infinity (from x/0 with x > 0).
The code stores the toFixed rendering of this value in the job record; we
keep the numeric value, with nan and inf standing for the strings NaN and
Infinity that toFixed produces on the non-finite cases. -/
inductive JsNum where
  | num (q : ℚ)
  | nan
  | inf
  deriving DecidableEq

/-- JavaScript division a / b on the nonnegative byte totals of the
pipeline: b = 0 gives NaN when a = 0 and Infinity otherwise, and a finite
rational quotient otherwise. -/
def jsDiv (a b : Nat) : JsNum :=
  if b = 0 then (if a = 0 then JsNum.nan else JsNum.inf)
  else JsNum.num ((a : ℚ) / (b : ℚ))

/-- The config object of src/index.js, restricted to the fields the
orchestration logic reads. The directory paths are the path.join results
relative to the module directory; the floating-point scale 1.5 is the
rational 3/2. The nested compressionOptions are consumed only inside the
sharp encoder, which is abstracted as the encode field of the environment
below. -/
structure AppConfig where
  inputDir : String
  outputDir : String
  imageFormat : String
  scale : ℚ
  deriving DecidableEq

/-- The concrete configuration values of src/index.js. -/
def config : AppConfig :=
  { inputDir := "pdfs", outputDir := "images", imageFormat := "jpeg", scale := 3 / 2 }

/-- path.join of a directory and an entry name. -/
def joinPath (dir entry : String) : String := dir ++ "/" ++ entry

/-- path.resolve on the already-rooted output directory path: modelled as
the identity, since paths are treated as canonical strings. -/
def resolvePath (p : String) : String := p

/-- Output file path for one page: outputDir/directoryId/pageNum.format,
as built at line 275 of src/index.js. -/
def pagePath (outDir dirId : String) (pageNum : Nat) (format : String) : String :=
  joinPath (joinPath outDir dirId) (toString pageNum ++ "." ++ format)

/-- The per-page error string pushed onto job.errors at line 287. -/
def pageErrMsg (pageNum : Nat) (msg : String) : String :=
  "Error on page " ++ toString pageNum ++ ": " ++ msg

/-- The error message raised at lines 218 and 219 when the source file is
absent. -/
def fileNotFoundMsg (pdfPath : String) : String :=
  "PDF file not found at path: " ++ pdfPath

/-- One Job Record of the in-memory tracker. Fields absent from the object
literal at creation (endTime, currentPage, outputPath, error, errors,
compressionRatio) are undefined in JavaScript and modelled as none or the
empty list. -/
structure Job where
  id : Nat
  directoryId : String
  pdfPath : String
  status : Status
  progress : Nat
  startTime : Nat
  endTime : Option Nat
  processedPages : Nat
  totalPages : Nat
  currentPage : Option Nat
  outputPath : Option String
  error : Option String
  errors : List String
  compressionRatio : Option JsNum
  deriving DecidableEq

/-- Job creation in the upload handler (lines 342 to 354): the counter is
pre-incremented and the new record starts pending with zero progress. -/
def uploadCreateJob (jobCounter : Nat) (directoryId pdfPath : String)
    (startTime : Nat) : Nat × Job :=
  (jobCounter + 1,
   { id := jobCounter + 1
     directoryId := directoryId
     pdfPath := pdfPath
     status := Status.pending
     progress := 0
     startTime := startTime
     endTime := none
     processedPages := 0
     totalPages := 0
     currentPage := none
     outputPath := none
     error := none
     errors := []
     compressionRatio := none })

/-- The try body of optimizeImage (lines 139 to 196): the whole sharp
pipeline (resize, sharpen, format-specific encode, toBuffer) is the
external encoder, which either yields the optimized bytes or fails. -/
def optimizeImageTry (encode : String → List Nat → Except String (List Nat))
    (imageBuffer : List Nat) (format : String) : Except String (List Nat) :=
  encode format imageBuffer

/-- optimizeImage (lines 138 to 201): runs the try body and, on any
internal failure, returns the original input buffer unchanged (the catch at
lines 197 to 200). The total return type records that the function never
raises to its caller. The pageNum and totalPages arguments are used only
for logging in the source. -/
def optimizeImage (encode : String → List Nat → Except String (List Nat))
    (imageBuffer : List Nat) (pageNum totalPages : Nat) (format : String) :
    List Nat :=
  match optimizeImageTry encode imageBuffer format with
  | Except.ok optimized => optimized
  | Except.error _ => imageBuffer

/-- The assignment job.currentPage = pageNum at line 246. -/
def withCurrent (job : Job) (p : Nat) : Job := { job with currentPage := some p }

/-- The per-page error push at lines 286 to 287. -/
def withPageError (job : Job) (p : Nat) (msg : String) : Job :=
  { job with errors := job.errors ++ [pageErrMsg p msg] }

/-- The success update of lines 279 to 280: increment processedPages and
recompute the floor percentage progress. -/
def withSuccess (job : Job) (tp : Nat) : Job :=
  { job with
    processedPages := job.processedPages + 1
    progress := (job.processedPages + 1) * 100 / tp }

/-- The transition to processing at line 208. -/
def startProcessing (job : Job) : Job := { job with status := Status.processing }

/-- The failure update of lines 217 to 218 merged with the outer catch at
lines 313 to 316, which runs synchronously with it: status failed, message
captured verbatim, endTime set. -/
def markFailed (job : Job) (msg : String) (t : Nat) : Job :=
  { job with
    status := Status.failed
    error := some msg
    endTime := some t }

/-- The completion block of lines 300 to 305: status completed, outputPath
set to the resolved output directory, endTime set, progress forced to 100,
compressionRatio stored. -/
def markCompleted (job : Job) (out : String) (t : Nat) (ratio : JsNum) : Job :=
  { job with
    status := Status.completed
    outputPath := some out
    endTime := some t
    progress := 100
    compressionRatio := some ratio }

/-- The document-open update of lines 229 to 230. -/
def setDocumentPages (job : Job) (tp : Nat) : Job :=
  { job with totalPages := tp, processedPages := 0 }

/-- Outcome of one iteration of the page loop, as decided by the external
renderer and filesystem. fatal: getPage or getViewport raises outside the
inner try (lines 248 to 255), which aborts the whole pipeline. renderFail:
the render or the raw toBuffer raises inside the try before the size
accounting (lines 264 to 267), caught at line 284. rendered: the raw bytes
were produced; the write at line 276 either succeeds (writeErr = none) or
raises with a message, also caught at line 284. -/
inductive PageOutcome where
  | fatal (msg : String)
  | renderFail (msg : String)
  | rendered (raw : List Nat) (writeErr : Option String)
  deriving DecidableEq

/-- Environment of one pipeline run: the outcomes of every external call
the pipeline makes, in the order the code consumes them. -/
structure Env where
  /-- Outcome of cleanDirectoryImages at line 211 (it rethrows on error). -/
  cleanResult : Except String Unit
  /-- Whether fs.access at line 215 finds the source file. -/
  fileExists : Bool
  /-- Outcome of readFile plus getDocument (lines 223 to 225): the page
  count of the opened document, or the parse failure message. -/
  loadResult : Except String Nat
  /-- Outcome of the loop body for each page number. -/
  page : Nat → PageOutcome
  /-- The sharp encoder by format, used by optimizeImage. -/
  encode : String → List Nat → Except String (List Nat)
  /-- The clock value captured by new Date() at a terminal transition. -/
  endTime : Nat

/-- Filesystem effects of the pipeline, recorded in program order. -/
inductive Event where
  | cleanOutput (dirId : String)
  | checkSource (pdfPath : String)
  | writeFile (path : String) (bytes : List Nat)
  deriving DecidableEq

/-- Result of the page loop: the observable job states it generated in
order, the filesystem write events, the job state when the loop ended, the
two running byte totals, and the message of a fatal abort when one
occurred. -/
structure PageLoopOut where
  states : List Job
  events : List Event
  final : Job
  totalOrig : Nat
  totalComp : Nat
  fatal : Option String
  deriving DecidableEq

/-- The page loop (lines 244 to 290) over the list of remaining page
numbers. Each iteration first publishes currentPage (line 246, observable
at the getPage await), then follows the outcome: a fatal raise leaves the
loop, a caught failure appends a page error string and continues without
counting sizes when the render itself failed, and a successful render adds
the raw and optimized sizes, writes the page file on write success, and
increments processedPages with the floor-percentage progress update
(lines 279 to 280). -/
def runPages (env : Env) (tp : Nat) (outDir dirId format : String) :
    List Nat → Job → Nat → Nat → PageLoopOut
  | [], job, o, c => ⟨[], [], job, o, c, none⟩
  | p :: rest, job, o, c =>
    let j1 : Job := withCurrent job p
    match env.page p with
    | PageOutcome.fatal msg => ⟨[j1], [], j1, o, c, some msg⟩
    | PageOutcome.renderFail msg =>
      let j2 : Job := withPageError j1 p msg
      let r := runPages env tp outDir dirId format rest j2 o c
      ⟨j1 :: j2 :: r.states, r.events, r.final, r.totalOrig, r.totalComp, r.fatal⟩
    | PageOutcome.rendered raw writeErr =>
      let o2 := o + raw.length
      let opt := optimizeImage env.encode raw p tp format
      let c2 := c + opt.length
      match writeErr with
      | some msg =>
        let j2 : Job := withPageError j1 p msg
        let r := runPages env tp outDir dirId format rest j2 o2 c2
        ⟨j1 :: j2 :: r.states, r.events, r.final, r.totalOrig, r.totalComp, r.fatal⟩
      | none =>
        let j2 : Job := withSuccess j1 tp
        let r := runPages env tp outDir dirId format rest j2 o2 c2
        ⟨j1 :: j2 :: r.states,
         Event.writeFile (pagePath outDir dirId p format) opt :: r.events,
         r.final, r.totalOrig, r.totalComp, r.fatal⟩

instance {α β : Type} [DecidableEq α] [DecidableEq β] : DecidableEq (Except α β) :=
  fun a b =>
  match a, b with
  | Except.ok x, Except.ok y =>
    if h : x = y then isTrue (by rw [h]) else isFalse (by intro hc; cases hc; exact h rfl)
  | Except.error x, Except.error y =>
    if h : x = y then isTrue (by rw [h]) else isFalse (by intro hc; cases hc; exact h rfl)
  | Except.ok _, Except.error _ => isFalse (by intro hc; cases hc)
  | Except.error _, Except.ok _ => isFalse (by intro hc; cases hc)

/-- Result of one whole pipeline run: the observable job states after the
record left the tracker-held pending state, the filesystem events in
program order, the final job state, and the return or raised value. -/
structure RunResult where
  trace : List Job
  events : List Event
  final : Job
  result : Except String String
  deriving DecidableEq

/-- convertPDFToImages (lines 204 to 322). The record first moves to
processing (line 208), then the output directory for the id is cleared,
the source file checked, the document opened; the page loop runs; finally
the completion block (lines 293 to 305) or, on any raise, the outer catch
(lines 310 to 321) marks the record failed. Consecutive synchronous field
assignments form one observable state. -/
def convertPDFToImages (env : Env) (pdfPath dirId : String) (job0 : Job) :
    RunResult :=
  let j1 : Job := startProcessing job0
  match env.cleanResult with
  | Except.error msg =>
    let jf : Job := markFailed j1 msg env.endTime
    ⟨[j1, jf], [Event.cleanOutput dirId], jf, Except.error msg⟩
  | Except.ok _ =>
    match env.fileExists with
    | false =>
      let jf : Job := markFailed j1 (fileNotFoundMsg pdfPath) env.endTime
      ⟨[j1, jf], [Event.cleanOutput dirId, Event.checkSource pdfPath], jf,
       Except.error (fileNotFoundMsg pdfPath)⟩
    | true =>
      match env.loadResult with
      | Except.error msg =>
        let jf : Job := markFailed j1 msg env.endTime
        ⟨[j1, jf], [Event.cleanOutput dirId, Event.checkSource pdfPath], jf,
         Except.error msg⟩
      | Except.ok tp =>
        let j2 : Job := setDocumentPages j1 tp
        let format := config.imageFormat.toLower
        let r := runPages env tp config.outputDir dirId format
                   (List.range' 1 tp) j2 0 0
        match r.fatal with
        | some msg =>
          let jf : Job := markFailed r.final msg env.endTime
          ⟨j1 :: j2 :: (r.states ++ [jf]),
           Event.cleanOutput dirId :: Event.checkSource pdfPath :: r.events,
           jf, Except.error msg⟩
        | none =>
          let out := resolvePath (joinPath config.outputDir dirId)
          let jf : Job := markCompleted r.final out env.endTime
                            (jsDiv r.totalOrig r.totalComp)
          ⟨j1 :: j2 :: (r.states ++ [jf]),
           Event.cleanOutput dirId :: Event.checkSource pdfPath :: r.events,
           jf, Except.ok out⟩

/-- Environment of one cleanup request: the readdir result on the input
directory and the unlink result for each full path. -/
structure CleanupEnv where
  readdirResult : Except String (List String)
  unlinkResult : String → Except String Unit

/-- The unlink loop of cleanupDirectories (lines 96 to 98): deletes the
files of the input directory in order, stopping at the first raising
unlink. Returns the full paths actually deleted and the raised message
when one raise occurred. -/
def deleteFiles (unlink : String → Except String Unit) (dir : String) :
    List String → List String × Option String
  | [] => ([], none)
  | f :: fs =>
    match unlink (joinPath dir f) with
    | Except.error e => ([], some e)
    | Except.ok _ =>
      let r := deleteFiles unlink dir fs
      (joinPath dir f :: r.1, r.2)

/-- cleanupDirectories (lines 92 to 107): reads the input directory and
unlinks every file in it; the catch at lines 103 to 106 logs any error and
deliberately does not rethrow, so the function always returns normally.
The images directory is never touched. First component: the deleted full
paths; second: the value the caller observes, always ok. -/
def cleanupDirectories (env : CleanupEnv) : List String × Except String Unit :=
  match env.readdirResult with
  | Except.error _ => ([], Except.ok ())
  | Except.ok files =>
    let r := deleteFiles env.unlinkResult config.inputDir files
    (r.1, Except.ok ())

/-- The files listed by readdir for the input directory, empty when the
readdir itself failed. -/
def inputFilesOf (env : CleanupEnv) : List String :=
  match env.readdirResult with
  | Except.ok files => files
  | Except.error _ => []

/-- The POST api maintenance cleanup handler (lines 407 to 417): awaits
cleanupDirectories and answers 200 with a message, or 500 with the error
message if cleanupDirectories raised. Returns the deleted paths, the HTTP
status code and the body text. -/
def cleanupHandler (env : CleanupEnv) : List String × Nat × String :=
  let r := cleanupDirectories env
  match r.2 with
  | Except.ok _ => (r.1, 200, "All temporary directories cleaned successfully")
  | Except.error e => (r.1, 500, e)

/-- The public response object built by the GET api jobs handler (lines
387 to 400): exactly the twelve listed fields, copied from the record. -/
structure JobResponse where
  id : Nat
  directoryId : String
  status : Status
  progress : Nat
  processedPages : Nat
  totalPages : Nat
  outputPath : Option String
  startTime : Nat
  endTime : Option Nat
  error : Option String
  errors : List String
  compressionRatio : Option JsNum
  deriving DecidableEq

/-- Builds the clean copy jobResponse of lines 387 to 400 from a record. -/
def mkJobResponse (job : Job) : JobResponse :=
  { id := job.id
    directoryId := job.directoryId
    status := job.status
    progress := job.progress
    processedPages := job.processedPages
    totalPages := job.totalPages
    outputPath := job.outputPath
    startTime := job.startTime
    endTime := job.endTime
    error := job.error
    errors := job.errors
    compressionRatio := job.compressionRatio }

/-- HTTP reply of the job status route: status code, the body for the
found case, and the error body for the not-found case. -/
structure HttpJobReply where
  code : Nat
  body : Option JobResponse
  errorBody : Option String
  deriving DecidableEq

/-- The GET api jobs handler (lines 375 to 404): looks the id up in the
conversionJobs map; 404 with the fixed error body when absent, otherwise
200 with the fresh copy of the public fields. The handler also returns the
job map it leaves behind, which is the one it received. -/
def getJobHandler (jobs : List (Nat × Job)) (jobId : Nat) :
    HttpJobReply × List (Nat × Job) :=
  match jobs.lookup jobId with
  | none => (⟨404, none, some "Job not found"⟩, jobs)
  | some job => (⟨200, some (mkJobResponse job), none⟩, jobs)

/-- Whether a page outcome aborts the whole pipeline. -/
def PageOutcome.isFatalOutcome : PageOutcome → Bool
  | PageOutcome.fatal _ => true
  | _ => false

/-- Whether a page outcome counts as a successfully processed page: the
render succeeded and the file write succeeded. -/
def PageOutcome.isSuccessOutcome : PageOutcome → Bool
  | PageOutcome.rendered _ none => true
  | _ => false

/-- The raw buffer of a rendered outcome, empty otherwise. -/
def PageOutcome.rawBytes : PageOutcome → List Nat
  | PageOutcome.rendered raw _ => raw
  | _ => []

/-- Specification of the error strings the loop accumulates over a list of
page numbers, truncated at a fatal outcome. -/
def loopErrors (env : Env) : List Nat → List String
  | [] => []
  | p :: rest =>
    match env.page p with
    | PageOutcome.fatal _ => []
    | PageOutcome.renderFail msg => pageErrMsg p msg :: loopErrors env rest
    | PageOutcome.rendered _ (some msg) => pageErrMsg p msg :: loopErrors env rest
    | PageOutcome.rendered _ none => loopErrors env rest

/-- Specification of the write events the loop emits over a list of page
numbers, truncated at a fatal outcome. -/
def loopWrites (env : Env) (tp : Nat) (outDir dirId format : String) :
    List Nat → List Event
  | [] => []
  | p :: rest =>
    match env.page p with
    | PageOutcome.fatal _ => []
    | PageOutcome.renderFail _ => loopWrites env tp outDir dirId format rest
    | PageOutcome.rendered _ (some _) => loopWrites env tp outDir dirId format rest
    | PageOutcome.rendered raw none =>
      Event.writeFile (pagePath outDir dirId p format)
          (optimizeImage env.encode raw p tp format) ::
        loopWrites env tp outDir dirId format rest

/-- Specification of the raw byte total the loop accumulates, truncated at
a fatal outcome. -/
def loopOrig (env : Env) : List Nat → Nat
  | [] => 0
  | p :: rest =>
    match env.page p with
    | PageOutcome.fatal _ => 0
    | PageOutcome.renderFail _ => loopOrig env rest
    | PageOutcome.rendered raw _ => raw.length + loopOrig env rest

/-- Specification of the optimized byte total the loop accumulates,
truncated at a fatal outcome. The optimized size of a page is counted even
when its write then fails, exactly as in lines 268 to 276. -/
def loopComp (env : Env) (tp : Nat) (format : String) : List Nat → Nat
  | [] => 0
  | p :: rest =>
    match env.page p with
    | PageOutcome.fatal _ => 0
    | PageOutcome.renderFail _ => loopComp env tp format rest
    | PageOutcome.rendered raw _ =>
      (optimizeImage env.encode raw p tp format).length + loopComp env tp format rest

/-- Number of successfully processed pages among a list of page numbers. -/
def countSuccess (env : Env) (pages : List Nat) : Nat :=
  (pages.filter fun p => (env.page p).isSuccessOutcome).length

/-! ### Projection lemmas for the job record updates -/

@[simp] theorem withCurrent_id (j : Job) (p : Nat) : (withCurrent j p).id = j.id := rfl

@[simp] theorem withCurrent_directoryId (j : Job) (p : Nat) : (withCurrent j p).directoryId = j.directoryId := rfl

@[simp] theorem withCurrent_pdfPath (j : Job) (p : Nat) : (withCurrent j p).pdfPath = j.pdfPath := rfl

@[simp] theorem withCurrent_status (j : Job) (p : Nat) : (withCurrent j p).status = j.status := rfl

@[simp] theorem withCurrent_progress (j : Job) (p : Nat) : (withCurrent j p).progress = j.progress := rfl

@[simp] theorem withCurrent_startTime (j : Job) (p : Nat) : (withCurrent j p).startTime = j.startTime := rfl

@[simp] theorem withCurrent_endTime (j : Job) (p : Nat) : (withCurrent j p).endTime = j.endTime := rfl

@[simp] theorem withCurrent_processedPages (j : Job) (p : Nat) : (withCurrent j p).processedPages = j.processedPages := rfl

@[simp] theorem withCurrent_totalPages (j : Job) (p : Nat) : (withCurrent j p).totalPages = j.totalPages := rfl

@[simp] theorem withCurrent_currentPage (j : Job) (p : Nat) : (withCurrent j p).currentPage = some p := rfl

@[simp] theorem withCurrent_outputPath (j : Job) (p : Nat) : (withCurrent j p).outputPath = j.outputPath := rfl

@[simp] theorem withCurrent_error (j : Job) (p : Nat) : (withCurrent j p).error = j.error := rfl

@[simp] theorem withCurrent_errors (j : Job) (p : Nat) : (withCurrent j p).errors = j.errors := rfl

@[simp] theorem withCurrent_compressionRatio (j : Job) (p : Nat) : (withCurrent j p).compressionRatio = j.compressionRatio := rfl

@[simp] theorem withPageError_id (j : Job) (p : Nat) (msg : String) : (withPageError j p msg).id = j.id := rfl

@[simp] theorem withPageError_directoryId (j : Job) (p : Nat) (msg : String) : (withPageError j p msg).directoryId = j.directoryId := rfl

@[simp] theorem withPageError_pdfPath (j : Job) (p : Nat) (msg : String) : (withPageError j p msg).pdfPath = j.pdfPath := rfl

@[simp] theorem withPageError_status (j : Job) (p : Nat) (msg : String) : (withPageError j p msg).status = j.status := rfl

@[simp] theorem withPageError_progress (j : Job) (p : Nat) (msg : String) : (withPageError j p msg).progress = j.progress := rfl

@[simp] theorem withPageError_startTime (j : Job) (p : Nat) (msg : String) : (withPageError j p msg).startTime = j.startTime := rfl

@[simp] theorem withPageError_endTime (j : Job) (p : Nat) (msg : String) : (withPageError j p msg).endTime = j.endTime := rfl

@[simp] theorem withPageError_processedPages (j : Job) (p : Nat) (msg : String) : (withPageError j p msg).processedPages = j.processedPages := rfl

@[simp] theorem withPageError_totalPages (j : Job) (p : Nat) (msg : String) : (withPageError j p msg).totalPages = j.totalPages := rfl

@[simp] theorem withPageError_currentPage (j : Job) (p : Nat) (msg : String) : (withPageError j p msg).currentPage = j.currentPage := rfl

@[simp] theorem withPageError_outputPath (j : Job) (p : Nat) (msg : String) : (withPageError j p msg).outputPath = j.outputPath := rfl

@[simp] theorem withPageError_error (j : Job) (p : Nat) (msg : String) : (withPageError j p msg).error = j.error := rfl

@[simp] theorem withPageError_errors (j : Job) (p : Nat) (msg : String) : (withPageError j p msg).errors = j.errors ++ [pageErrMsg p msg] := rfl

@[simp] theorem withPageError_compressionRatio (j : Job) (p : Nat) (msg : String) : (withPageError j p msg).compressionRatio = j.compressionRatio := rfl

@[simp] theorem withSuccess_id (j : Job) (tp : Nat) : (withSuccess j tp).id = j.id := rfl

@[simp] theorem withSuccess_directoryId (j : Job) (tp : Nat) : (withSuccess j tp).directoryId = j.directoryId := rfl

@[simp] theorem withSuccess_pdfPath (j : Job) (tp : Nat) : (withSuccess j tp).pdfPath = j.pdfPath := rfl

@[simp] theorem withSuccess_status (j : Job) (tp : Nat) : (withSuccess j tp).status = j.status := rfl

@[simp] theorem withSuccess_progress (j : Job) (tp : Nat) : (withSuccess j tp).progress = (j.processedPages + 1) * 100 / tp := rfl

@[simp] theorem withSuccess_startTime (j : Job) (tp : Nat) : (withSuccess j tp).startTime = j.startTime := rfl

@[simp] theorem withSuccess_endTime (j : Job) (tp : Nat) : (withSuccess j tp).endTime = j.endTime := rfl

@[simp] theorem withSuccess_processedPages (j : Job) (tp : Nat) : (withSuccess j tp).processedPages = j.processedPages + 1 := rfl

@[simp] theorem withSuccess_totalPages (j : Job) (tp : Nat) : (withSuccess j tp).totalPages = j.totalPages := rfl

@[simp] theorem withSuccess_currentPage (j : Job) (tp : Nat) : (withSuccess j tp).currentPage = j.currentPage := rfl

@[simp] theorem withSuccess_outputPath (j : Job) (tp : Nat) : (withSuccess j tp).outputPath = j.outputPath := rfl

@[simp] theorem withSuccess_error (j : Job) (tp : Nat) : (withSuccess j tp).error = j.error := rfl

@[simp] theorem withSuccess_errors (j : Job) (tp : Nat) : (withSuccess j tp).errors = j.errors := rfl

@[simp] theorem withSuccess_compressionRatio (j : Job) (tp : Nat) : (withSuccess j tp).compressionRatio = j.compressionRatio := rfl

@[simp] theorem startProcessing_id (j : Job) : (startProcessing j).id = j.id := rfl

@[simp] theorem startProcessing_directoryId (j : Job) : (startProcessing j).directoryId = j.directoryId := rfl

@[simp] theorem startProcessing_pdfPath (j : Job) : (startProcessing j).pdfPath = j.pdfPath := rfl

@[simp] theorem startProcessing_status (j : Job) : (startProcessing j).status = Status.processing := rfl

@[simp] theorem startProcessing_progress (j : Job) : (startProcessing j).progress = j.progress := rfl

@[simp] theorem startProcessing_startTime (j : Job) : (startProcessing j).startTime = j.startTime := rfl

@[simp] theorem startProcessing_endTime (j : Job) : (startProcessing j).endTime = j.endTime := rfl

@[simp] theorem startProcessing_processedPages (j : Job) : (startProcessing j).processedPages = j.processedPages := rfl

@[simp] theorem startProcessing_totalPages (j : Job) : (startProcessing j).totalPages = j.totalPages := rfl

@[simp] theorem startProcessing_currentPage (j : Job) : (startProcessing j).currentPage = j.currentPage := rfl

@[simp] theorem startProcessing_outputPath (j : Job) : (startProcessing j).outputPath = j.outputPath := rfl

@[simp] theorem startProcessing_error (j : Job) : (startProcessing j).error = j.error := rfl

@[simp] theorem startProcessing_errors (j : Job) : (startProcessing j).errors = j.errors := rfl

@[simp] theorem startProcessing_compressionRatio (j : Job) : (startProcessing j).compressionRatio = j.compressionRatio := rfl

@[simp] theorem markFailed_id (j : Job) (msg : String) (t : Nat) : (markFailed j msg t).id = j.id := rfl

@[simp] theorem markFailed_directoryId (j : Job) (msg : String) (t : Nat) : (markFailed j msg t).directoryId = j.directoryId := rfl

@[simp] theorem markFailed_pdfPath (j : Job) (msg : String) (t : Nat) : (markFailed j msg t).pdfPath = j.pdfPath := rfl

@[simp] theorem markFailed_status (j : Job) (msg : String) (t : Nat) : (markFailed j msg t).status = Status.failed := rfl

@[simp] theorem markFailed_progress (j : Job) (msg : String) (t : Nat) : (markFailed j msg t).progress = j.progress := rfl

@[simp] theorem markFailed_startTime (j : Job) (msg : String) (t : Nat) : (markFailed j msg t).startTime = j.startTime := rfl

@[simp] theorem markFailed_endTime (j : Job) (msg : String) (t : Nat) : (markFailed j msg t).endTime = some t := rfl

@[simp] theorem markFailed_processedPages (j : Job) (msg : String) (t : Nat) : (markFailed j msg t).processedPages = j.processedPages := rfl

@[simp] theorem markFailed_totalPages (j : Job) (msg : String) (t : Nat) : (markFailed j msg t).totalPages = j.totalPages := rfl

@[simp] theorem markFailed_currentPage (j : Job) (msg : String) (t : Nat) : (markFailed j msg t).currentPage = j.currentPage := rfl

@[simp] theorem markFailed_outputPath (j : Job) (msg : String) (t : Nat) : (markFailed j msg t).outputPath = j.outputPath := rfl

@[simp] theorem markFailed_error (j : Job) (msg : String) (t : Nat) : (markFailed j msg t).error = some msg := rfl

@[simp] theorem markFailed_errors (j : Job) (msg : String) (t : Nat) : (markFailed j msg t).errors = j.errors := rfl

@[simp] theorem markFailed_compressionRatio (j : Job) (msg : String) (t : Nat) : (markFailed j msg t).compressionRatio = j.compressionRatio := rfl

@[simp] theorem markCompleted_id (j : Job) (out : String) (t : Nat) (ratio : JsNum) : (markCompleted j out t ratio).id = j.id := rfl

@[simp] theorem markCompleted_directoryId (j : Job) (out : String) (t : Nat) (ratio : JsNum) : (markCompleted j out t ratio).directoryId = j.directoryId := rfl

@[simp] theorem markCompleted_pdfPath (j : Job) (out : String) (t : Nat) (ratio : JsNum) : (markCompleted j out t ratio).pdfPath = j.pdfPath := rfl

@[simp] theorem markCompleted_status (j : Job) (out : String) (t : Nat) (ratio : JsNum) : (markCompleted j out t ratio).status = Status.completed := rfl

@[simp] theorem markCompleted_progress (j : Job) (out : String) (t : Nat) (ratio : JsNum) : (markCompleted j out t ratio).progress = 100 := rfl

@[simp] theorem markCompleted_startTime (j : Job) (out : String) (t : Nat) (ratio : JsNum) : (markCompleted j out t ratio).startTime = j.startTime := rfl

@[simp] theorem markCompleted_endTime (j : Job) (out : String) (t : Nat) (ratio : JsNum) : (markCompleted j out t ratio).endTime = some t := rfl

@[simp] theorem markCompleted_processedPages (j : Job) (out : String) (t : Nat) (ratio : JsNum) : (markCompleted j out t ratio).processedPages = j.processedPages := rfl

@[simp] theorem markCompleted_totalPages (j : Job) (out : String) (t : Nat) (ratio : JsNum) : (markCompleted j out t ratio).totalPages = j.totalPages := rfl

@[simp] theorem markCompleted_currentPage (j : Job) (out : String) (t : Nat) (ratio : JsNum) : (markCompleted j out t ratio).currentPage = j.currentPage := rfl

@[simp] theorem markCompleted_outputPath (j : Job) (out : String) (t : Nat) (ratio : JsNum) : (markCompleted j out t ratio).outputPath = some out := rfl

@[simp] theorem markCompleted_error (j : Job) (out : String) (t : Nat) (ratio : JsNum) : (markCompleted j out t ratio).error = j.error := rfl

@[simp] theorem markCompleted_errors (j : Job) (out : String) (t : Nat) (ratio : JsNum) : (markCompleted j out t ratio).errors = j.errors := rfl

@[simp] theorem markCompleted_compressionRatio (j : Job) (out : String) (t : Nat) (ratio : JsNum) : (markCompleted j out t ratio).compressionRatio = some ratio := rfl

@[simp] theorem setDocumentPages_id (j : Job) (tp : Nat) : (setDocumentPages j tp).id = j.id := rfl

@[simp] theorem setDocumentPages_directoryId (j : Job) (tp : Nat) : (setDocumentPages j tp).directoryId = j.directoryId := rfl

@[simp] theorem setDocumentPages_pdfPath (j : Job) (tp : Nat) : (setDocumentPages j tp).pdfPath = j.pdfPath := rfl

@[simp] theorem setDocumentPages_status (j : Job) (tp : Nat) : (setDocumentPages j tp).status = j.status := rfl

@[simp] theorem setDocumentPages_progress (j : Job) (tp : Nat) : (setDocumentPages j tp).progress = j.progress := rfl

@[simp] theorem setDocumentPages_startTime (j : Job) (tp : Nat) : (setDocumentPages j tp).startTime = j.startTime := rfl

@[simp] theorem setDocumentPages_endTime (j : Job) (tp : Nat) : (setDocumentPages j tp).endTime = j.endTime := rfl

@[simp] theorem setDocumentPages_processedPages (j : Job) (tp : Nat) : (setDocumentPages j tp).processedPages = 0 := rfl

@[simp] theorem setDocumentPages_totalPages (j : Job) (tp : Nat) : (setDocumentPages j tp).totalPages = tp := rfl

@[simp] theorem setDocumentPages_currentPage (j : Job) (tp : Nat) : (setDocumentPages j tp).currentPage = j.currentPage := rfl

@[simp] theorem setDocumentPages_outputPath (j : Job) (tp : Nat) : (setDocumentPages j tp).outputPath = j.outputPath := rfl

@[simp] theorem setDocumentPages_error (j : Job) (tp : Nat) : (setDocumentPages j tp).error = j.error := rfl

@[simp] theorem setDocumentPages_errors (j : Job) (tp : Nat) : (setDocumentPages j tp).errors = j.errors := rfl

@[simp] theorem setDocumentPages_compressionRatio (j : Job) (tp : Nat) : (setDocumentPages j tp).compressionRatio = j.compressionRatio := rfl

/-! ### Lemmas about the page loop -/

/-- Every job state the loop generates is related to its predecessor by
any relation that tolerates the three kinds of record update the loop
performs; the list stays chained when a successor of the final loop state
is appended. -/
theorem runPages_chain {R : Job → Job → Prop}
    (env : Env) (tp : Nat) (od di fm : String)
    (h1 : ∀ (j : Job) (p : Nat), R j (withCurrent j p))
    (h2 : ∀ (j : Job) (p : Nat) (msg : String), R j (withPageError j p msg))
    (h3 : ∀ (j : Job), R j (withSuccess j tp)) :
    ∀ (pages : List Nat) (job : Job) (o c : Nat) (x : Job),
      R (runPages env tp od di fm pages job o c).final x →
      List.Chain' R (job :: ((runPages env tp od di fm pages job o c).states ++ [x])) := by
  intro pages
  induction pages with
  | nil =>
    intro job o c x hx
    simp only [runPages, List.nil_append] at hx ⊢
    exact List.chain'_cons.mpr ⟨hx, List.chain'_singleton x⟩
  | cons p rest ih =>
    intro job o c x hx
    cases hp : env.page p with
    | fatal msg =>
      simp only [runPages, hp] at hx ⊢
      exact List.chain'_cons.mpr ⟨h1 job p,
        List.chain'_cons.mpr ⟨hx, List.chain'_singleton x⟩⟩
    | renderFail msg =>
      simp only [runPages, hp] at hx ⊢
      exact List.chain'_cons.mpr ⟨h1 job p,
        List.chain'_cons.mpr ⟨h2 _ _ _, ih _ _ _ _ hx⟩⟩
    | rendered raw werr =>
      cases werr with
      | some msg =>
        simp only [runPages, hp] at hx ⊢
        exact List.chain'_cons.mpr ⟨h1 job p,
          List.chain'_cons.mpr ⟨h2 _ _ _, ih _ _ _ _ hx⟩⟩
      | none =>
        simp only [runPages, hp] at hx ⊢
        exact List.chain'_cons.mpr ⟨h1 job p,
          List.chain'_cons.mpr ⟨h3 _, ih _ _ _ _ hx⟩⟩

/-- Any property preserved by the three kinds of record update the loop
performs holds of every generated state and of the final loop state. -/
theorem runPages_inv {P : Job → Prop}
    (env : Env) (tp : Nat) (od di fm : String)
    (h1 : ∀ (j : Job) (p : Nat), P j → P (withCurrent j p))
    (h2 : ∀ (j : Job) (p : Nat) (msg : String), P j → P (withPageError j p msg))
    (h3 : ∀ (j : Job), P j → P (withSuccess j tp)) :
    ∀ (pages : List Nat) (job : Job) (o c : Nat), P job →
      (∀ s ∈ (runPages env tp od di fm pages job o c).states, P s) ∧
      P (runPages env tp od di fm pages job o c).final := by
  intro pages
  induction pages with
  | nil =>
    intro job o c hj
    simp only [runPages]
    exact ⟨by intro s hs; simp at hs, hj⟩
  | cons p rest ih =>
    intro job o c hj
    cases hp : env.page p with
    | fatal msg =>
      simp only [runPages, hp]
      constructor
      · intro s hs
        simp only [List.mem_singleton] at hs
        exact hs ▸ h1 job p hj
      · exact h1 job p hj
    | renderFail msg =>
      simp only [runPages, hp]
      refine ⟨?_, (ih _ _ _ (h2 _ _ _ (h1 job p hj))).2⟩
      intro s hs
      simp only [List.mem_cons] at hs
      rcases hs with rfl | rfl | hs
      · exact h1 job p hj
      · exact h2 _ _ _ (h1 job p hj)
      · exact (ih _ _ _ (h2 _ _ _ (h1 job p hj))).1 s hs
    | rendered raw werr =>
      cases werr with
      | some msg =>
        simp only [runPages, hp]
        refine ⟨?_, (ih _ _ _ (h2 _ _ _ (h1 job p hj))).2⟩
        intro s hs
        simp only [List.mem_cons] at hs
        rcases hs with rfl | rfl | hs
        · exact h1 job p hj
        · exact h2 _ _ _ (h1 job p hj)
        · exact (ih _ _ _ (h2 _ _ _ (h1 job p hj))).1 s hs
      | none =>
        simp only [runPages, hp]
        refine ⟨?_, (ih _ _ _ (h3 _ (h1 job p hj))).2⟩
        intro s hs
        simp only [List.mem_cons] at hs
        rcases hs with rfl | rfl | hs
        · exact h1 job p hj
        · exact h3 _ (h1 job p hj)
        · exact (ih _ _ _ (h3 _ (h1 job p hj))).1 s hs

/-- Bound on processedPages through the loop: when the remaining page count
fits under totalPages, every generated state and the final state satisfy
processedPages less or equal totalPages, and totalPages is preserved. -/
theorem runPages_bound (env : Env) (tp : Nat) (od di fm : String) :
    ∀ (pages : List Nat) (job : Job) (o c : Nat),
      job.processedPages + pages.length ≤ job.totalPages →
      (∀ s ∈ (runPages env tp od di fm pages job o c).states,
        s.processedPages ≤ s.totalPages) ∧
      (runPages env tp od di fm pages job o c).final.processedPages ≤
        (runPages env tp od di fm pages job o c).final.totalPages ∧
      (runPages env tp od di fm pages job o c).final.totalPages = job.totalPages := by
  intro pages
  induction pages with
  | nil =>
    intro job o c h
    simp only [List.length_nil] at h
    simp only [runPages]
    refine ⟨?_, ?_, trivial⟩
    · intro s hs
      simp at hs
    · omega
  | cons p rest ih =>
    intro job o c h
    simp only [List.length_cons] at h
    cases hp : env.page p with
    | fatal msg =>
      simp only [runPages, hp]
      refine ⟨?_, by simp; omega, by simp⟩
      intro s hs
      simp only [List.mem_singleton] at hs
      subst hs
      simp only [withCurrent_processedPages, withCurrent_totalPages]
      omega
    | renderFail msg =>
      simp only [runPages, hp]
      obtain ⟨hm, hf1, hf2⟩ :=
        ih (withPageError (withCurrent job p) p msg) o c (by simp; omega)
      refine ⟨?_, hf1, by simp at hf2 ⊢; omega⟩
      intro s hs
      simp only [List.mem_cons] at hs
      rcases hs with rfl | rfl | hs
      · simp only [withCurrent_processedPages, withCurrent_totalPages]; omega
      · simp only [withPageError_processedPages, withPageError_totalPages,
          withCurrent_processedPages, withCurrent_totalPages]
        omega
      · exact hm s hs
    | rendered raw werr =>
      cases werr with
      | some msg =>
        simp only [runPages, hp]
        obtain ⟨hm, hf1, hf2⟩ :=
          ih (withPageError (withCurrent job p) p msg) (o + raw.length)
            (c + (optimizeImage env.encode raw p tp fm).length) (by simp; omega)
        refine ⟨?_, hf1, by simp at hf2 ⊢; omega⟩
        intro s hs
        simp only [List.mem_cons] at hs
        rcases hs with rfl | rfl | hs
        · simp only [withCurrent_processedPages, withCurrent_totalPages]; omega
        · simp only [withPageError_processedPages, withPageError_totalPages,
            withCurrent_processedPages, withCurrent_totalPages]
          omega
        · exact hm s hs
      | none =>
        simp only [runPages, hp]
        obtain ⟨hm, hf1, hf2⟩ :=
          ih (withSuccess (withCurrent job p) tp) (o + raw.length)
            (c + (optimizeImage env.encode raw p tp fm).length) (by simp; omega)
        refine ⟨?_, hf1, by simp at hf2 ⊢; omega⟩
        intro s hs
        simp only [List.mem_cons] at hs
        rcases hs with rfl | rfl | hs
        · simp only [withCurrent_processedPages, withCurrent_totalPages]; omega
        · simp only [withSuccess_processedPages, withSuccess_totalPages,
            withCurrent_processedPages, withCurrent_totalPages]
          omega
        · exact hm s hs

/-- The write events the loop emits are exactly the loopWrites
specification. -/
theorem runPages_events (env : Env) (tp : Nat) (od di fm : String) :
    ∀ (pages : List Nat) (job : Job) (o c : Nat),
      (runPages env tp od di fm pages job o c).events =
        loopWrites env tp od di fm pages := by
  intro pages
  induction pages with
  | nil => intro job o c; simp [runPages, loopWrites]
  | cons p rest ih =>
    intro job o c
    cases hp : env.page p with
    | fatal msg => simp [runPages, loopWrites, hp]
    | renderFail msg => simp only [runPages, loopWrites, hp]; exact ih _ _ _
    | rendered raw werr =>
      cases werr with
      | some msg => simp only [runPages, loopWrites, hp]; exact ih _ _ _
      | none =>
        simp only [runPages, loopWrites, hp]
        rw [ih _ _ _]

/-- The byte totals the loop accumulates are the loopOrig and loopComp
specifications added to the incoming accumulators. -/
theorem runPages_totals (env : Env) (tp : Nat) (od di fm : String) :
    ∀ (pages : List Nat) (job : Job) (o c : Nat),
      (runPages env tp od di fm pages job o c).totalOrig = o + loopOrig env pages ∧
      (runPages env tp od di fm pages job o c).totalComp =
        c + loopComp env tp fm pages := by
  intro pages
  induction pages with
  | nil => intro job o c; simp [runPages, loopOrig, loopComp]
  | cons p rest ih =>
    intro job o c
    cases hp : env.page p with
    | fatal msg => simp [runPages, loopOrig, loopComp, hp]
    | renderFail msg =>
      simp only [runPages, loopOrig, loopComp, hp]
      exact ih _ _ _
    | rendered raw werr =>
      have key : ∀ (j2 : Job),
          (runPages env tp od di fm rest j2 (o + raw.length)
            (c + (optimizeImage env.encode raw p tp fm).length)).totalOrig =
            o + (raw.length + loopOrig env rest) ∧
          (runPages env tp od di fm rest j2 (o + raw.length)
            (c + (optimizeImage env.encode raw p tp fm).length)).totalComp =
            c + ((optimizeImage env.encode raw p tp fm).length +
              loopComp env tp fm rest) := by
        intro j2
        obtain ⟨ho, hc⟩ := ih j2 (o + raw.length)
          (c + (optimizeImage env.encode raw p tp fm).length)
        omega
      cases werr with
      | some msg =>
        simp only [runPages, loopOrig, loopComp, hp]
        exact key _
      | none =>
        simp only [runPages, loopOrig, loopComp, hp]
        exact key _

/-- When no page outcome is fatal, the loop finishes without a fatal
abort, accumulates exactly the loopErrors strings after the incoming
errors, and counts exactly the successful pages. -/
theorem runPages_noFatal (env : Env) (tp : Nat) (od di fm : String) :
    ∀ (pages : List Nat) (job : Job) (o c : Nat),
      (∀ p ∈ pages, (env.page p).isFatalOutcome = false) →
      (runPages env tp od di fm pages job o c).fatal = none ∧
      (runPages env tp od di fm pages job o c).final.errors =
        job.errors ++ loopErrors env pages ∧
      (runPages env tp od di fm pages job o c).final.processedPages =
        job.processedPages + countSuccess env pages := by
  intro pages
  induction pages with
  | nil => intro job o c _; simp [runPages, loopErrors, countSuccess]
  | cons p rest ih =>
    intro job o c hno
    have hrest : ∀ q ∈ rest, (env.page q).isFatalOutcome = false := by
      intro q hq; exact hno q (List.mem_cons_of_mem p hq)
    cases hp : env.page p with
    | fatal msg =>
      have := hno p (List.mem_cons_self p rest)
      rw [hp] at this
      simp [PageOutcome.isFatalOutcome] at this
    | renderFail msg =>
      simp only [runPages, loopErrors, hp]
      obtain ⟨hf, he, hc⟩ :=
        ih (withPageError (withCurrent job p) p msg) o c hrest
      refine ⟨hf, ?_, ?_⟩
      · rw [he]
        simp [List.append_assoc]
      · rw [hc]
        simp only [withPageError_processedPages, withCurrent_processedPages,
          countSuccess, List.filter_cons, hp, PageOutcome.isSuccessOutcome]
        simp
    | rendered raw werr =>
      cases werr with
      | some msg =>
        simp only [runPages, loopErrors, hp]
        obtain ⟨hf, he, hc⟩ :=
          ih (withPageError (withCurrent job p) p msg) (o + raw.length)
            (c + (optimizeImage env.encode raw p tp fm).length) hrest
        refine ⟨hf, ?_, ?_⟩
        · rw [he]
          simp [List.append_assoc]
        · rw [hc]
          simp only [withPageError_processedPages, withCurrent_processedPages,
            countSuccess, List.filter_cons, hp, PageOutcome.isSuccessOutcome]
          simp
      | none =>
        simp only [runPages, loopErrors, hp]
        obtain ⟨hf, he, hc⟩ :=
          ih (withSuccess (withCurrent job p) tp) (o + raw.length)
            (c + (optimizeImage env.encode raw p tp fm).length) hrest
        refine ⟨hf, ?_, ?_⟩
        · rw [he]
          simp
        · rw [hc]
          simp only [withSuccess_processedPages, withCurrent_processedPages,
            countSuccess, List.filter_cons, hp, PageOutcome.isSuccessOutcome]
          simp
          omega

/-- With no fatal outcome, loopWrites is the map of the write event over
the successful pages in order. -/
theorem loopWrites_eq_map (env : Env) (tp : Nat) (od di fm : String) :
    ∀ (pages : List Nat),
      (∀ p ∈ pages, (env.page p).isFatalOutcome = false) →
      loopWrites env tp od di fm pages =
        (pages.filter fun p => (env.page p).isSuccessOutcome).map
          (fun p => Event.writeFile (pagePath od di p fm)
            (optimizeImage env.encode (env.page p).rawBytes p tp fm)) := by
  intro pages
  induction pages with
  | nil => intro _; simp [loopWrites]
  | cons p rest ih =>
    intro hno
    have hrest : ∀ q ∈ rest, (env.page q).isFatalOutcome = false := by
      intro q hq; exact hno q (List.mem_cons_of_mem p hq)
    cases hp : env.page p with
    | fatal msg =>
      have := hno p (List.mem_cons_self p rest)
      rw [hp] at this
      simp [PageOutcome.isFatalOutcome] at this
    | renderFail msg =>
      simp only [loopWrites, hp, List.filter_cons, PageOutcome.isSuccessOutcome]
      simpa using ih hrest
    | rendered raw werr =>
      cases werr with
      | some msg =>
        simp only [loopWrites, hp, List.filter_cons, PageOutcome.isSuccessOutcome]
        simpa using ih hrest
      | none =>
        simp only [loopWrites, hp, List.filter_cons, PageOutcome.isSuccessOutcome]
        simp only [if_pos]
        rw [List.map_cons]
        refine congrArg₂ _ ?_ (ih hrest)
        rw [hp]
        rfl

/-! ### Lemmas about the whole pipeline run -/

/-- The final loop state and every generated loop state keep the status,
outputPath and totalPages of the job that entered the loop. -/
theorem runPages_preserve (env : Env) (tp : Nat) (od di fm : String)
    (pages : List Nat) (job : Job) (o c : Nat) :
    ((runPages env tp od di fm pages job o c).final.status = job.status ∧
      (runPages env tp od di fm pages job o c).final.outputPath = job.outputPath ∧
      (runPages env tp od di fm pages job o c).final.totalPages = job.totalPages) ∧
    ∀ s ∈ (runPages env tp od di fm pages job o c).states,
      s.status = job.status ∧ s.outputPath = job.outputPath ∧
      s.totalPages = job.totalPages := by
  have h := runPages_inv
    (P := fun j => j.status = job.status ∧ j.outputPath = job.outputPath ∧
      j.totalPages = job.totalPages)
    env tp od di fm
    (by intro j p h; simpa using h)
    (by intro j p m h; simpa using h)
    (by intro j h; simpa using h)
    pages job o c ⟨rfl, rfl, rfl⟩
  exact ⟨h.2, h.1⟩

/-- Chain combinator for the whole pipeline: any relation that tolerates
each of the observable record updates of the run chains the initial job
through the whole trace. -/
theorem pipeline_chain {R : Job → Job → Prop} (env : Env)
    (pdfPath dirId : String) (job0 : Job)
    (h1 : ∀ (j : Job) (p : Nat), R j (withCurrent j p))
    (h2 : ∀ (j : Job) (p : Nat) (msg : String), R j (withPageError j p msg))
    (h3 : ∀ (j : Job) (tp : Nat), R j (withSuccess j tp))
    (hstart : R job0 (startProcessing job0))
    (hfail : ∀ (j : Job) (msg : String), j.status = Status.processing →
      R j (markFailed j msg env.endTime))
    (hopen : ∀ tp : Nat,
      R (startProcessing job0) (setDocumentPages (startProcessing job0) tp))
    (hdone : ∀ (j : Job) (out : String) (ratio : JsNum),
      j.status = Status.processing → R j (markCompleted j out env.endTime ratio)) :
    List.Chain' R (job0 :: (convertPDFToImages env pdfPath dirId job0).trace) := by
  cases hc : env.cleanResult with
  | error msg =>
    simp only [convertPDFToImages, hc]
    exact List.chain'_cons.mpr ⟨hstart, List.chain'_cons.mpr
      ⟨hfail _ _ rfl, List.chain'_singleton _⟩⟩
  | ok u =>
    cases hf : env.fileExists with
    | false =>
      simp only [convertPDFToImages, hc, hf]
      exact List.chain'_cons.mpr ⟨hstart, List.chain'_cons.mpr
        ⟨hfail _ _ rfl, List.chain'_singleton _⟩⟩
    | true =>
      cases hl : env.loadResult with
      | error msg =>
        simp only [convertPDFToImages, hc, hf, hl]
        exact List.chain'_cons.mpr ⟨hstart, List.chain'_cons.mpr
          ⟨hfail _ _ rfl, List.chain'_singleton _⟩⟩
      | ok tp =>
        have hfs : (runPages env tp config.outputDir dirId
            config.imageFormat.toLower (List.range' 1 tp)
            (setDocumentPages (startProcessing job0) tp) 0 0).final.status =
            Status.processing :=
          ((runPages_preserve env tp config.outputDir dirId
            config.imageFormat.toLower (List.range' 1 tp)
            (setDocumentPages (startProcessing job0) tp) 0 0).1).1
        have hchain := runPages_chain env tp config.outputDir dirId
          config.imageFormat.toLower h1 h2 (fun j => h3 j tp)
        cases hr : (runPages env tp config.outputDir dirId
            config.imageFormat.toLower (List.range' 1 tp)
            (setDocumentPages (startProcessing job0) tp) 0 0).fatal with
        | some msg =>
          simp only [convertPDFToImages, hc, hf, hl, hr]
          refine List.chain'_cons.mpr ⟨hstart, List.chain'_cons.mpr ⟨hopen tp, ?_⟩⟩
          exact hchain _ _ _ _ _ (hfail _ _ hfs)
        | none =>
          simp only [convertPDFToImages, hc, hf, hl, hr]
          refine List.chain'_cons.mpr ⟨hstart, List.chain'_cons.mpr ⟨hopen tp, ?_⟩⟩
          exact hchain _ _ _ _ _ (hdone _ _ _ hfs)

/-- Invariant combinator for the whole pipeline: any property preserved by
each of the observable record updates of the run holds of the initial job
and of every state of the trace. -/
theorem pipeline_inv {P : Job → Prop} (env : Env)
    (pdfPath dirId : String) (job0 : Job)
    (h1 : ∀ (j : Job) (p : Nat), P j → P (withCurrent j p))
    (h2 : ∀ (j : Job) (p : Nat) (msg : String), P j → P (withPageError j p msg))
    (h3 : ∀ (j : Job) (tp : Nat), P j → P (withSuccess j tp))
    (hzero : P job0)
    (hstart : P (startProcessing job0))
    (hfail : ∀ (j : Job) (msg : String), j.status = Status.processing → P j →
      P (markFailed j msg env.endTime))
    (hopen : ∀ tp : Nat, P (setDocumentPages (startProcessing job0) tp))
    (hdone : ∀ (j : Job) (out : String) (ratio : JsNum),
      j.status = Status.processing → P j →
      P (markCompleted j out env.endTime ratio)) :
    ∀ s ∈ job0 :: (convertPDFToImages env pdfPath dirId job0).trace, P s := by
  cases hc : env.cleanResult with
  | error msg =>
    simp only [convertPDFToImages, hc]
    intro s hs
    simp only [List.mem_cons, List.mem_singleton] at hs
    rcases hs with rfl | rfl | rfl | h
    · exact hzero
    · exact hstart
    · exact hfail _ _ rfl hstart
    · simp at h
  | ok u =>
    cases hf : env.fileExists with
    | false =>
      simp only [convertPDFToImages, hc, hf]
      intro s hs
      simp only [List.mem_cons, List.mem_singleton] at hs
      rcases hs with rfl | rfl | rfl | h
      · exact hzero
      · exact hstart
      · exact hfail _ _ rfl hstart
      · simp at h
    | true =>
      cases hl : env.loadResult with
      | error msg =>
        simp only [convertPDFToImages, hc, hf, hl]
        intro s hs
        simp only [List.mem_cons, List.mem_singleton] at hs
        rcases hs with rfl | rfl | rfl | h
        · exact hzero
        · exact hstart
        · exact hfail _ _ rfl hstart
        · simp at h
      | ok tp =>
        have hfs : (runPages env tp config.outputDir dirId
            config.imageFormat.toLower (List.range' 1 tp)
            (setDocumentPages (startProcessing job0) tp) 0 0).final.status =
            Status.processing :=
          ((runPages_preserve env tp config.outputDir dirId
            config.imageFormat.toLower (List.range' 1 tp)
            (setDocumentPages (startProcessing job0) tp) 0 0).1).1
        have hloop := runPages_inv env tp config.outputDir dirId
          config.imageFormat.toLower h1 h2 (fun j => h3 j tp)
          (List.range' 1 tp) (setDocumentPages (startProcessing job0) tp) 0 0
          (hopen tp)
        cases hr : (runPages env tp config.outputDir dirId
            config.imageFormat.toLower (List.range' 1 tp)
            (setDocumentPages (startProcessing job0) tp) 0 0).fatal with
        | some msg =>
          simp only [convertPDFToImages, hc, hf, hl, hr]
          intro s hs
          simp only [List.mem_cons, List.mem_append, List.mem_singleton] at hs
          rcases hs with rfl | rfl | rfl | hs | rfl | h
          · exact hzero
          · exact hstart
          · exact hopen tp
          · exact hloop.1 s hs
          · exact hfail _ _ hfs hloop.2
          · simp at h
        | none =>
          simp only [convertPDFToImages, hc, hf, hl, hr]
          intro s hs
          simp only [List.mem_cons, List.mem_append, List.mem_singleton] at hs
          rcases hs with rfl | rfl | rfl | hs | rfl | h
          · exact hzero
          · exact hstart
          · exact hopen tp
          · exact hloop.1 s hs
          · exact hdone _ _ _ hfs hloop.2
          · simp at h

/-- Through a whole run started on a fresh record, processedPages never
exceeds totalPages in any observable state. -/
theorem pipeline_pp_le_tp (env : Env) (pdfPath dirId : String) (job0 : Job)
    (h0 : job0.processedPages = 0) (h0t : job0.totalPages = 0) :
    ∀ s ∈ job0 :: (convertPDFToImages env pdfPath dirId job0).trace,
      s.processedPages ≤ s.totalPages := by
  cases hc : env.cleanResult with
  | error msg =>
    simp only [convertPDFToImages, hc]
    intro s hs
    simp only [List.mem_cons, List.mem_singleton] at hs
    rcases hs with rfl | rfl | rfl | h
    · omega
    · simp; omega
    · simp; omega
    · simp at h
  | ok u =>
    cases hf : env.fileExists with
    | false =>
      simp only [convertPDFToImages, hc, hf]
      intro s hs
      simp only [List.mem_cons, List.mem_singleton] at hs
      rcases hs with rfl | rfl | rfl | h
      · omega
      · simp; omega
      · simp; omega
      · simp at h
    | true =>
      cases hl : env.loadResult with
      | error msg =>
        simp only [convertPDFToImages, hc, hf, hl]
        intro s hs
        simp only [List.mem_cons, List.mem_singleton] at hs
        rcases hs with rfl | rfl | rfl | h
        · omega
        · simp; omega
        · simp; omega
        · simp at h
      | ok tp =>
        have hbound := runPages_bound env tp config.outputDir dirId
          config.imageFormat.toLower (List.range' 1 tp)
          (setDocumentPages (startProcessing job0) tp) 0 0
          (by simp [List.length_range'])
        cases hr : (runPages env tp config.outputDir dirId
            config.imageFormat.toLower (List.range' 1 tp)
            (setDocumentPages (startProcessing job0) tp) 0 0).fatal with
        | some msg =>
          simp only [convertPDFToImages, hc, hf, hl, hr]
          intro s hs
          simp only [List.mem_cons, List.mem_append, List.mem_singleton] at hs
          rcases hs with rfl | rfl | rfl | hs | rfl | h
          · omega
          · simp; omega
          · simp
          · exact hbound.1 s hs
          · have := hbound.2.1
            simp
            omega
          · simp at h
        | none =>
          simp only [convertPDFToImages, hc, hf, hl, hr]
          intro s hs
          simp only [List.mem_cons, List.mem_append, List.mem_singleton] at hs
          rcases hs with rfl | rfl | rfl | hs | rfl | h
          · omega
          · simp; omega
          · simp
          · exact hbound.1 s hs
          · have := hbound.2.1
            simp
            omega
          · simp at h

/-! ### Claim theorems -/

/-- One step of the forward status order of the specification: a status
either stays put, moves pending to processing, or moves processing to a
terminal state. -/
def statusStep (a b : Status) : Prop :=
  a = b ∨ (a = Status.pending ∧ b = Status.processing) ∨
    (a = Status.processing ∧ (b = Status.completed ∨ b = Status.failed))

/-- A forward step out of a terminal status leaves the status unchanged. -/
theorem statusStep_terminal {a b : Status} (h : statusStep a b)
    (ht : a = Status.completed ∨ a = Status.failed) : b = a := by
  rcases h with rfl | ⟨h1, h2⟩ | ⟨h1, h2⟩
  · rfl
  · subst h1
    rcases ht with h | h <;> simp at h
  · subst h1
    rcases ht with h | h <;> simp at h

/-- C3: for every input buffer (including malformed image bytes), page
number, total-page count and format, optimizeImage returns a value to its
caller instead of raising (its return type is total), and when the
internal encoding fails the original input buffer is returned unchanged;
moreover the page loop records no error on the job for a page whose render
and write succeed, regardless of what the encoder did with that page. -/
theorem C3_optimize_never_throws
    (encode : String → List Nat → Except String (List Nat))
    (imageBuffer : List Nat) (pageNum tp : Nat) (format msg : String)
    (hfail : optimizeImageTry encode imageBuffer format = Except.error msg) :
    optimizeImage encode imageBuffer pageNum tp format = imageBuffer ∧
    ∀ (env : Env) (od di fm : String) (p : Nat) (job : Job) (o c : Nat)
      (raw : List Nat),
      env.page p = PageOutcome.rendered raw none →
      (runPages env tp od di fm [p] job o c).final.errors = job.errors := by
  constructor
  · simp [optimizeImage, hfail]
  · intro env od di fm p job o c raw hpage
    simp [runPages, hpage]

/-- An encoder that fails on every input, standing for the sharp pipeline
given malformed bytes. -/
def encodeAlwaysFails : String → List Nat → Except String (List Nat) :=
  fun _ _ => Except.error "Input buffer contains unsupported image format"

/-- Witness for C3 at a concrete malformed buffer. -/
theorem C3_optimize_never_throws_witness :
    optimizeImageTry encodeAlwaysFails [7, 7, 7] "jpeg" =
      Except.error "Input buffer contains unsupported image format" ∧
    optimizeImage encodeAlwaysFails [7, 7, 7] 1 3 "jpeg" = [7, 7, 7] :=
  ⟨rfl, (C3_optimize_never_throws encodeAlwaysFails [7, 7, 7] 1 3 "jpeg"
    "Input buffer contains unsupported image format" rfl).1⟩

/-- C9: the job status route answers 404 with the fixed error body when
the id is unknown, and otherwise 200 with exactly the twelve public
fields of the record, each copied unchanged. -/
theorem C9_get_job_route (jobs : List (Nat × Job)) (jobId : Nat) :
    (jobs.lookup jobId = none →
      (getJobHandler jobs jobId).1 = ⟨404, none, some "Job not found"⟩) ∧
    (∀ job : Job, jobs.lookup jobId = some job →
      (getJobHandler jobs jobId).1.code = 200 ∧
      (getJobHandler jobs jobId).1.body = some (mkJobResponse job) ∧
      (getJobHandler jobs jobId).1.errorBody = none ∧
      (mkJobResponse job).id = job.id ∧
      (mkJobResponse job).directoryId = job.directoryId ∧
      (mkJobResponse job).status = job.status ∧
      (mkJobResponse job).progress = job.progress ∧
      (mkJobResponse job).processedPages = job.processedPages ∧
      (mkJobResponse job).totalPages = job.totalPages ∧
      (mkJobResponse job).outputPath = job.outputPath ∧
      (mkJobResponse job).startTime = job.startTime ∧
      (mkJobResponse job).endTime = job.endTime ∧
      (mkJobResponse job).error = job.error ∧
      (mkJobResponse job).errors = job.errors ∧
      (mkJobResponse job).compressionRatio = job.compressionRatio) := by
  constructor
  · intro h
    simp [getJobHandler, h]
  · intro job h
    simp [getJobHandler, h, mkJobResponse]

/-- A concrete fresh job record used by route witnesses. -/
def wJob : Job := (uploadCreateJob 0 "42" "pdfs/42.pdf" 11).2

/-- A concrete one-entry job tracker used by route witnesses. -/
def wJobs : List (Nat × Job) := [(1, wJob)]

/-- Witness for C9 at a concrete tracker: unknown id 2 and known id 1. -/
theorem C9_get_job_route_witness :
    (getJobHandler wJobs 2).1 = ⟨404, none, some "Job not found"⟩ ∧
    (getJobHandler wJobs 1).1.code = 200 :=
  ⟨(C9_get_job_route wJobs 2).1 rfl, ((C9_get_job_route wJobs 1).2 wJob rfl).1⟩

/-- C10: the job status route returns the tracker unchanged, and the
response it builds is a fresh copy that does not depend on the private
pdfPath field of the record, so polling can never mutate job state and
pdfPath is never exposed. -/
theorem C10_get_job_pure (jobs : List (Nat × Job)) (jobId : Nat)
    (job : Job) (p : String) :
    (getJobHandler jobs jobId).2 = jobs ∧
    mkJobResponse { job with pdfPath := p } = mkJobResponse job := by
  constructor
  · cases h : jobs.lookup jobId with
    | none => simp [getJobHandler, h]
    | some j => simp [getJobHandler, h]
  · rfl

/-- C4: along every observable trace of a job created by the upload
handler and driven by one pipeline run, the status only moves forward
along pending, processing, then completed or failed, and in particular a
terminal status is never changed. -/
theorem C4_status_forward (env : Env) (pdfPath dirId : String)
    (counter startTime : Nat) :
    List.Chain' (fun a b => statusStep a.status b.status)
      ((uploadCreateJob counter dirId pdfPath startTime).2 ::
        (convertPDFToImages env pdfPath dirId
          (uploadCreateJob counter dirId pdfPath startTime).2).trace) ∧
    List.Chain' (fun a b =>
        (a.status = Status.completed ∨ a.status = Status.failed) →
        b.status = a.status)
      ((uploadCreateJob counter dirId pdfPath startTime).2 ::
        (convertPDFToImages env pdfPath dirId
          (uploadCreateJob counter dirId pdfPath startTime).2).trace) := by
  have hchain : List.Chain' (fun a b => statusStep a.status b.status)
      ((uploadCreateJob counter dirId pdfPath startTime).2 ::
        (convertPDFToImages env pdfPath dirId
          (uploadCreateJob counter dirId pdfPath startTime).2).trace) := by
    apply pipeline_chain
    · intro j p
      simp [statusStep]
    · intro j p msg
      simp [statusStep]
    · intro j tp
      simp [statusStep]
    · right
      left
      exact ⟨rfl, rfl⟩
    · intro j msg hj
      simp [statusStep, hj]
    · simp [statusStep]
    · intro j out ratio hj
      simp [statusStep, hj]
  exact ⟨hchain, hchain.imp fun a b h ht => statusStep_terminal h ht⟩

/-- C5: for a job created by the upload handler, processedPages starts at
zero and is non-decreasing along the trace; in every observable state
processedPages never exceeds totalPages; and totalPages starts at zero and
changes only from that unset state, so it is zero until the document is
opened. -/
theorem C5_progress_counters (env : Env) (pdfPath dirId : String)
    (counter startTime : Nat) :
    (uploadCreateJob counter dirId pdfPath startTime).2.processedPages = 0 ∧
    (uploadCreateJob counter dirId pdfPath startTime).2.totalPages = 0 ∧
    List.Chain' (fun a b => a.processedPages ≤ b.processedPages)
      ((uploadCreateJob counter dirId pdfPath startTime).2 ::
        (convertPDFToImages env pdfPath dirId
          (uploadCreateJob counter dirId pdfPath startTime).2).trace) ∧
    (∀ s ∈ (uploadCreateJob counter dirId pdfPath startTime).2 ::
        (convertPDFToImages env pdfPath dirId
          (uploadCreateJob counter dirId pdfPath startTime).2).trace,
      s.processedPages ≤ s.totalPages) ∧
    List.Chain' (fun a b => a.totalPages = 0 ∨ b.totalPages = a.totalPages)
      ((uploadCreateJob counter dirId pdfPath startTime).2 ::
        (convertPDFToImages env pdfPath dirId
          (uploadCreateJob counter dirId pdfPath startTime).2).trace) := by
  refine ⟨rfl, rfl, ?_, ?_, ?_⟩
  · apply pipeline_chain
    · intro j p
      simp
    · intro j p msg
      simp
    · intro j tp
      simp only [withSuccess_processedPages]
      omega
    · simp
    · intro j msg hj
      simp
    · intro tp
      simp [uploadCreateJob]
    · intro j out ratio hj
      simp
  · exact pipeline_pp_le_tp env pdfPath dirId _ rfl rfl
  · apply pipeline_chain
    · intro j p
      right
      simp
    · intro j p msg
      right
      simp
    · intro j tp
      right
      simp
    · right
      simp
    · intro j msg hj
      right
      simp
    · intro tp
      left
      rfl
    · intro j out ratio hj
      right
      simp

/-- C6: in every observable state of the lifetime of a job created by the
upload handler, outputPath is set exactly when the status is completed. -/
theorem C6_outputPath_iff_completed (env : Env) (pdfPath dirId : String)
    (counter startTime : Nat) :
    ∀ s ∈ (uploadCreateJob counter dirId pdfPath startTime).2 ::
        (convertPDFToImages env pdfPath dirId
          (uploadCreateJob counter dirId pdfPath startTime).2).trace,
      (s.outputPath.isSome ↔ s.status = Status.completed) := by
  apply pipeline_inv
  · intro j p h
    simpa using h
  · intro j p msg h
    simpa using h
  · intro j tp h
    simpa using h
  · simp [uploadCreateJob]
  · simp [uploadCreateJob]
  · intro j msg hj h
    simp [hj] at h
    simp [h]
  · intro tp
    simp [uploadCreateJob]
  · intro j out ratio hj h
    simp

/-- Environment of a run over a zero-page document: every external call
succeeds and the document opens with zero pages, so the page loop runs no
iteration and both byte totals stay zero. -/
def envZeroPages : Env :=
  { cleanResult := Except.ok ()
    fileExists := true
    loadResult := Except.ok 0
    page := fun _ => PageOutcome.rendered [] none
    encode := fun _ b => Except.ok b
    endTime := 7 }

/-- C1 counterexample: a run that processes zero pages completes, but its
compressionRatio is NaN (the JavaScript value of 0 / 0), not a finite
number, so the division at line 293 is not guarded against divide by
zero. -/
theorem C1_guard_counterexample :
    (convertPDFToImages envZeroPages "pdfs/42.pdf" "42"
      (uploadCreateJob 0 "42" "pdfs/42.pdf" 3).2).final.status =
      Status.completed ∧
    (convertPDFToImages envZeroPages "pdfs/42.pdf" "42"
      (uploadCreateJob 0 "42" "pdfs/42.pdf" 3).2).final.compressionRatio =
      some JsNum.nan ∧
    ¬ ∃ q : ℚ, (convertPDFToImages envZeroPages "pdfs/42.pdf" "42"
      (uploadCreateJob 0 "42" "pdfs/42.pdf" 3).2).final.compressionRatio =
      some (JsNum.num q) := by
  refine ⟨rfl, rfl, ?_⟩
  rintro ⟨q, hq⟩
  rw [show (convertPDFToImages envZeroPages "pdfs/42.pdf" "42"
      (uploadCreateJob 0 "42" "pdfs/42.pdf" 3).2).final.compressionRatio =
      some JsNum.nan from rfl] at hq
  simp at hq

/-- C1 amended: after the page loop the pipeline stores the JavaScript
division totalOriginalBytes / totalCompressedBytes as the compression
ratio with no divide-by-zero guard: the run still completes, but with a
zero compressed total the stored value is NaN or Infinity rather than a
finite number. -/
theorem C1_ratio_amended (env : Env) (pdfPath dirId : String) (job0 : Job)
    (tp : Nat)
    (hclean : env.cleanResult = Except.ok ())
    (hfile : env.fileExists = true)
    (hload : env.loadResult = Except.ok tp)
    (hnofatal : ∀ p ∈ List.range' 1 tp, (env.page p).isFatalOutcome = false) :
    (convertPDFToImages env pdfPath dirId job0).final.status =
      Status.completed ∧
    (convertPDFToImages env pdfPath dirId job0).final.compressionRatio =
      some (jsDiv (loopOrig env (List.range' 1 tp))
        (loopComp env tp config.imageFormat.toLower (List.range' 1 tp))) ∧
    (loopComp env tp config.imageFormat.toLower (List.range' 1 tp) = 0 →
      (convertPDFToImages env pdfPath dirId job0).final.compressionRatio =
        some JsNum.nan ∨
      (convertPDFToImages env pdfPath dirId job0).final.compressionRatio =
        some JsNum.inf) := by
  have hnf := (runPages_noFatal env tp config.outputDir dirId
    config.imageFormat.toLower (List.range' 1 tp)
    (setDocumentPages (startProcessing job0) tp) 0 0 hnofatal).1
  have ht := runPages_totals env tp config.outputDir dirId
    config.imageFormat.toLower (List.range' 1 tp)
    (setDocumentPages (startProcessing job0) tp) 0 0
  simp only [convertPDFToImages, hclean, hfile, hload, hnf]
  refine ⟨by simp, ?_, ?_⟩
  · simp only [markCompleted_compressionRatio]
    rw [ht.1, ht.2]
    simp
  · intro h0
    simp only [markCompleted_compressionRatio]
    rw [ht.1, ht.2]
    simp only [Nat.zero_add]
    rw [h0]
    by_cases ho : loopOrig env (List.range' 1 tp) = 0
    · left
      simp [jsDiv, ho]
    · right
      simp [jsDiv, ho]

/-- Witness for C1 amended at the zero-page run. -/
theorem C1_ratio_amended_witness :
    envZeroPages.loadResult = Except.ok 0 ∧
    (convertPDFToImages envZeroPages "pdfs/42.pdf" "42"
      (uploadCreateJob 0 "42" "pdfs/42.pdf" 3).2).final.status =
      Status.completed :=
  ⟨rfl, (C1_ratio_amended envZeroPages "pdfs/42.pdf" "42"
    (uploadCreateJob 0 "42" "pdfs/42.pdf" 3).2 0 rfl rfl rfl (by decide)).1⟩

/-- A cleanup environment in which the first unlink raises. -/
def cleanupEnvFailing : CleanupEnv :=
  { readdirResult := Except.ok ["a.pdf", "b.pdf"]
    unlinkResult := fun p =>
      if p = "pdfs/a.pdf" then Except.error "EPERM: operation not permitted"
      else Except.ok () }

/-- C2 counterexample: a cleanup run in which a delete raises still
answers 200, not 500, and leaves the later input file undeleted, so the
route does not respond 500 when a delete throws and does not delete every
input file. -/
theorem C2_cleanup_counterexample :
    cleanupEnvFailing.unlinkResult (joinPath config.inputDir "a.pdf") =
      Except.error "EPERM: operation not permitted" ∧
    "b.pdf" ∈ inputFilesOf cleanupEnvFailing ∧
    (cleanupHandler cleanupEnvFailing).2.1 = 200 ∧
    (cleanupHandler cleanupEnvFailing).2.1 ≠ 500 ∧
    joinPath config.inputDir "b.pdf" ∉ (cleanupHandler cleanupEnvFailing).1 := by
  refine ⟨?_, ?_, ?_, ?_, ?_⟩ <;> decide

/-- Every path the delete loop removes is an input-directory path for one
of the listed files. -/
theorem deleteFiles_sub (unlink : String → Except String Unit) (dir : String) :
    ∀ (fs : List String), ∀ p ∈ (deleteFiles unlink dir fs).1,
      ∃ f ∈ fs, p = joinPath dir f := by
  intro fs
  induction fs with
  | nil =>
    intro p hp
    simp [deleteFiles] at hp
  | cons f rest ih =>
    intro p hp
    cases hu : unlink (joinPath dir f) with
    | error e =>
      simp only [deleteFiles, hu] at hp
      simp at hp
    | ok u =>
      simp only [deleteFiles, hu, List.mem_cons] at hp
      rcases hp with rfl | hp
      · exact ⟨f, List.mem_cons_self f rest, rfl⟩
      · obtain ⟨g, hg, rfl⟩ := ih p hp
        exact ⟨g, List.mem_cons_of_mem f hg, rfl⟩

/-- When every unlink succeeds the delete loop removes exactly the listed
files, each under the given directory, in order. -/
theorem deleteFiles_all_ok (unlink : String → Except String Unit)
    (dir : String) :
    ∀ (fs : List String),
      (∀ f ∈ fs, unlink (joinPath dir f) = Except.ok ()) →
      (deleteFiles unlink dir fs).1 = fs.map (joinPath dir) := by
  intro fs
  induction fs with
  | nil =>
    intro _
    simp [deleteFiles]
  | cons f rest ih =>
    intro h
    have hf := h f (List.mem_cons_self f rest)
    simp only [deleteFiles, hf, List.map_cons, List.cons.injEq, true_and]
    exact ih fun g hg => h g (List.mem_cons_of_mem f hg)

/-- The maintenance cleanup route always answers 200: cleanupDirectories
catches every error internally and never rethrows, so the 500 branch of
the handler is unreachable. -/
theorem cleanupHandler_always_200 (e : CleanupEnv) :
    (cleanupHandler e).2.1 = 200 := by
  cases h : e.readdirResult with
  | error msg => simp [cleanupHandler, cleanupDirectories, h]
  | ok files => simp [cleanupHandler, cleanupDirectories, h]

/-- C2 amended: the cleanup route attempts to delete the input-directory
files in order, stopping at the first raising delete; every error is
caught inside cleanupDirectories and never rethrown, so the route always
responds 200 and the 500 branch is unreachable; when no delete raises it
deletes exactly the listed input files; and every deleted path lies in the
input directory, never the output directory. -/
theorem C2_cleanup_amended (env : CleanupEnv) (fs : List String)
    (h1 : env.readdirResult = Except.ok fs)
    (h2 : ∀ f ∈ fs, env.unlinkResult (joinPath config.inputDir f) =
      Except.ok ()) :
    (∀ e : CleanupEnv, (cleanupHandler e).2.1 = 200) ∧
    (cleanupHandler env).1 = fs.map (joinPath config.inputDir) ∧
    (∀ e : CleanupEnv, ∀ p ∈ (cleanupHandler e).1,
      ∃ f ∈ inputFilesOf e, p = joinPath config.inputDir f) := by
  refine ⟨cleanupHandler_always_200, ?_, ?_⟩
  · simp only [cleanupHandler, cleanupDirectories, h1]
    exact deleteFiles_all_ok env.unlinkResult config.inputDir fs h2
  · intro e p
    cases h : e.readdirResult with
    | error msg =>
      simp [cleanupHandler, cleanupDirectories, inputFilesOf, h]
    | ok gs =>
      simp only [cleanupHandler, cleanupDirectories, inputFilesOf, h]
      intro hp
      exact deleteFiles_sub e.unlinkResult config.inputDir gs p hp

/-- A cleanup environment in which every unlink succeeds. -/
def cleanupEnvOk : CleanupEnv :=
  { readdirResult := Except.ok ["a.pdf", "b.pdf"]
    unlinkResult := fun _ => Except.ok () }

/-- Witness for C2 amended on a concrete two-file input directory. -/
theorem C2_cleanup_amended_witness :
    cleanupEnvOk.readdirResult = Except.ok ["a.pdf", "b.pdf"] ∧
    (cleanupHandler cleanupEnvOk).1 =
      ["a.pdf", "b.pdf"].map (joinPath config.inputDir) :=
  ⟨rfl, (C2_cleanup_amended cleanupEnvOk ["a.pdf", "b.pdf"] rfl
    (by decide)).2.1⟩

/-- The error string of a caught page failure appears in the accumulated
loopErrors of any page list containing that page, when no page is fatal. -/
theorem loopErrors_mem (env : Env) :
    ∀ (pages : List Nat) (p : Nat) (msg : String),
      p ∈ pages → (∀ q ∈ pages, (env.page q).isFatalOutcome = false) →
      env.page p = PageOutcome.renderFail msg →
      pageErrMsg p msg ∈ loopErrors env pages := by
  intro pages
  induction pages with
  | nil =>
    intro p msg hp _ _
    simp at hp
  | cons a rest ih =>
    intro p msg hp hno hfailp
    rcases List.mem_cons.mp hp with rfl | hp2
    · simp [loopErrors, hfailp]
    · have hrest : ∀ q ∈ rest, (env.page q).isFatalOutcome = false :=
        fun q hq => hno q (List.mem_cons_of_mem a hq)
      have hmem := ih p msg hp2 hrest hfailp
      cases ha : env.page a with
      | fatal m =>
        have hfa := hno a (List.mem_cons_self a rest)
        rw [ha] at hfa
        simp [PageOutcome.isFatalOutcome] at hfa
      | renderFail m =>
        simp only [loopErrors, ha]
        exact List.mem_cons_of_mem _ hmem
      | rendered raw werr =>
        cases werr with
        | some m =>
          simp only [loopErrors, ha]
          exact List.mem_cons_of_mem _ hmem
        | none =>
          simp only [loopErrors, ha]
          exact hmem

/-- The source-missing error message is never the empty string. -/
theorem fileNotFoundMsg_ne_empty (p : String) : fileNotFoundMsg p ≠ "" := by
  intro h
  have hl := congrArg String.length h
  rw [fileNotFoundMsg, String.length_append] at hl
  have h28 : ("PDF file not found at path: " : String).length = 28 := rfl
  rw [h28] at hl
  simp at hl

/-- C7: when the run reaches the page loop and some page fails with a
caught render error, that page contributes its error string to the final
errors sequence and is not counted in processedPages, while the run still
completes: the final status is completed, progress is forced to 100, the
final processedPages counts exactly the successful pages, and the pipeline
returns the output path normally. -/
theorem C7_page_failures_nonfatal (env : Env) (pdfPath dirId : String)
    (job0 : Job) (tp p : Nat) (msg : String)
    (hclean : env.cleanResult = Except.ok ())
    (hfile : env.fileExists = true)
    (hload : env.loadResult = Except.ok tp)
    (hnofatal : ∀ q ∈ List.range' 1 tp, (env.page q).isFatalOutcome = false)
    (hmem : p ∈ List.range' 1 tp)
    (hfailp : env.page p = PageOutcome.renderFail msg) :
    (convertPDFToImages env pdfPath dirId job0).final.status =
      Status.completed ∧
    (convertPDFToImages env pdfPath dirId job0).final.progress = 100 ∧
    pageErrMsg p msg ∈ (convertPDFToImages env pdfPath dirId job0).final.errors ∧
    (convertPDFToImages env pdfPath dirId job0).final.processedPages =
      countSuccess env (List.range' 1 tp) ∧
    (env.page p).isSuccessOutcome = false ∧
    (convertPDFToImages env pdfPath dirId job0).result =
      Except.ok (resolvePath (joinPath config.outputDir dirId)) := by
  obtain ⟨hnf, herr, hcount⟩ := runPages_noFatal env tp config.outputDir dirId
    config.imageFormat.toLower (List.range' 1 tp)
    (setDocumentPages (startProcessing job0) tp) 0 0 hnofatal
  simp only [convertPDFToImages, hclean, hfile, hload, hnf]
  refine ⟨by simp, by simp, ?_, ?_, ?_, by trivial⟩
  · simp only [markCompleted_errors]
    rw [herr]
    exact List.mem_append_right _
      (loopErrors_mem env (List.range' 1 tp) p msg hmem hnofatal hfailp)
  · simp only [markCompleted_processedPages]
    rw [hcount]
    simp
  · rw [hfailp]
    rfl

/-- Environment of a three-page run whose second page fails with a caught
render error and whose other pages succeed. -/
def envC7 : Env :=
  { cleanResult := Except.ok ()
    fileExists := true
    loadResult := Except.ok 3
    page := fun p =>
      if p = 2 then PageOutcome.renderFail "Invalid image data"
      else PageOutcome.rendered [9, 9] none
    encode := fun _ b => Except.ok b
    endTime := 9 }

/-- The fresh job of the C7 witness run. -/
def jobC7 : Job := (uploadCreateJob 1 "7" "pdfs/7.pdf" 2).2

/-- Witness for C7: the three-page run with a failing second page still
completes. -/
theorem C7_page_failures_nonfatal_witness :
    envC7.page 2 = PageOutcome.renderFail "Invalid image data" ∧
    (convertPDFToImages envC7 "pdfs/7.pdf" "7" jobC7).final.status =
      Status.completed :=
  ⟨rfl, (C7_page_failures_nonfatal envC7 "pdfs/7.pdf" "7" jobC7 3 2
    "Invalid image data" rfl rfl rfl (by decide) (by decide) rfl).1⟩

/-- C8: the pipeline first clears the pre-existing output for the
directory identifier, then checks the source file; a missing source marks
the job failed with the descriptive non-empty message and raises it, with
no write performed; on the successful path the events are the output
clear, then the source check, then one write per successfully processed
page at outputDir/directoryId/pageNumber.format, over the page numbers 1
to totalPages in strictly ascending order. -/
theorem C8_pipeline_order (env : Env) (pdfPath dirId : String) (job0 : Job)
    (hclean : env.cleanResult = Except.ok ()) :
    ((env.fileExists = false) →
      (convertPDFToImages env pdfPath dirId job0).final.status =
        Status.failed ∧
      (convertPDFToImages env pdfPath dirId job0).final.error =
        some (fileNotFoundMsg pdfPath) ∧
      fileNotFoundMsg pdfPath ≠ "" ∧
      (convertPDFToImages env pdfPath dirId job0).result =
        Except.error (fileNotFoundMsg pdfPath) ∧
      (convertPDFToImages env pdfPath dirId job0).events =
        [Event.cleanOutput dirId, Event.checkSource pdfPath]) ∧
    (∀ tp : Nat, env.fileExists = true → env.loadResult = Except.ok tp →
      (∀ q ∈ List.range' 1 tp, (env.page q).isFatalOutcome = false) →
      (convertPDFToImages env pdfPath dirId job0).events =
        Event.cleanOutput dirId :: Event.checkSource pdfPath ::
          ((List.range' 1 tp).filter fun p => (env.page p).isSuccessOutcome).map
            (fun p => Event.writeFile
              (pagePath config.outputDir dirId p config.imageFormat.toLower)
              (optimizeImage env.encode (env.page p).rawBytes p tp
                config.imageFormat.toLower)) ∧
      List.Pairwise (· < ·)
        ((List.range' 1 tp).filter fun p => (env.page p).isSuccessOutcome)) := by
  constructor
  · intro hfile
    simp only [convertPDFToImages, hclean, hfile]
    exact ⟨by simp, by simp, fileNotFoundMsg_ne_empty pdfPath, by trivial, by trivial⟩
  · intro tp hfile hload hnofatal
    have hnf := (runPages_noFatal env tp config.outputDir dirId
      config.imageFormat.toLower (List.range' 1 tp)
      (setDocumentPages (startProcessing job0) tp) 0 0 hnofatal).1
    have hev := runPages_events env tp config.outputDir dirId
      config.imageFormat.toLower (List.range' 1 tp)
      (setDocumentPages (startProcessing job0) tp) 0 0
    constructor
    · simp only [convertPDFToImages, hclean, hfile, hload, hnf]
      rw [hev, loopWrites_eq_map env tp config.outputDir dirId
        config.imageFormat.toLower (List.range' 1 tp) hnofatal]
    · exact List.Pairwise.sublist (List.filter_sublist _)
        (List.pairwise_lt_range' 1 tp)

/-- Environment of a run whose source file is missing. -/
def envC8 : Env :=
  { cleanResult := Except.ok ()
    fileExists := false
    loadResult := Except.ok 0
    page := fun _ => PageOutcome.rendered [] none
    encode := fun _ b => Except.ok b
    endTime := 4 }

/-- The fresh job of the C8 witness run. -/
def jobC8 : Job := (uploadCreateJob 2 "8" "pdfs/8.pdf" 1).2

/-- Witness for C8: a missing source file marks the job failed. -/
theorem C8_pipeline_order_witness :
    envC8.cleanResult = Except.ok () ∧
    (convertPDFToImages envC8 "pdfs/8.pdf" "8" jobC8).final.status =
      Status.failed :=
  ⟨rfl, ((C8_pipeline_order envC8 "pdfs/8.pdf" "8" jobC8 rfl).1 rfl).1⟩

/-- Environment of a small successful two-page run used by the C5
witness. -/
def envC5 : Env :=
  { cleanResult := Except.ok ()
    fileExists := true
    loadResult := Except.ok 2
    page := fun _ => PageOutcome.rendered [3] none
    encode := fun _ b => Except.ok b
    endTime := 6 }

/-- Witness for C5 at a concrete run and the first observable state. -/
theorem C5_progress_counters_witness :
    (uploadCreateJob 0 "5" "pdfs/5.pdf" 0).2.processedPages = 0 ∧
    (uploadCreateJob 0 "5" "pdfs/5.pdf" 0).2.processedPages ≤
      (uploadCreateJob 0 "5" "pdfs/5.pdf" 0).2.totalPages :=
  ⟨(C5_progress_counters envC5 "pdfs/5.pdf" "5" 0 0).1,
   (C5_progress_counters envC5 "pdfs/5.pdf" "5" 0 0).2.2.2.1 _
     (List.mem_cons_self _ _)⟩

/-- Environment of a small successful one-page run used by the C6
witness. -/
def envC6 : Env :=
  { cleanResult := Except.ok ()
    fileExists := true
    loadResult := Except.ok 1
    page := fun _ => PageOutcome.rendered [5] none
    encode := fun _ b => Except.ok b
    endTime := 8 }

/-- Witness for C6 at a concrete run and the first observable state. -/
theorem C6_outputPath_iff_completed_witness :
    ((uploadCreateJob 0 "6" "pdfs/6.pdf" 0).2.outputPath.isSome ↔
      (uploadCreateJob 0 "6" "pdfs/6.pdf" 0).2.status = Status.completed) :=
  C6_outputPath_iff_completed envC6 "pdfs/6.pdf" "6" 0 0 _
    (List.mem_cons_self _ _)

end PdfServer
